import Mathlib

/-!
Verification development for the MusicLovely payment backend
(Fastify + Supabase, `src/routes/payment.ts` and friends).

The two webhook handlers (`POST /api/cakto/webhook` and
`POST /api/hotmart/webhook`) are embedded, after the
signature/authentication stage, as pure functions from a decoded event,
a database snapshot and an environment oracle to a run result (HTTP
response, new database, inserted webhook-log rows, dispatched side
effects).  Store reads are modelled as pure queries over the snapshot;
store writes are modelled as always succeeding (the handlers' own
persistence-failure branches are out of scope of the claims examined
here).  External invocations (`notify-payment-webhook`,
`generate-lyrics-for-approval`) and clock reads are fed by the oracle.
-/

namespace MusicLovely

/-! ## JavaScript string helpers -/

/-- `String.prototype.trim()`: strip leading and trailing whitespace. -/
def jsTrim (s : String) : String :=
  ⟨((s.data.dropWhile Char.isWhitespace).reverse.dropWhile Char.isWhitespace).reverse⟩

/-- `s.replace(/\D/g, '')`: keep the decimal digits of `s`. -/
def digitsOnly (s : String) : String :=
  ⟨s.data.filter Char.isDigit⟩

/-- `p` is a prefix of `l` (kernel-friendly boolean test). -/
def prefixOfB : List Char → List Char → Bool
  | _, [] => true
  | [], _ :: _ => false
  | a :: l, b :: p => a = b && prefixOfB l p

/-- `p` occurs as a contiguous segment of `l`. -/
def infixOfB : List Char → List Char → Bool
  | [], p => p.isEmpty
  | a :: l, p => prefixOfB (a :: l) p || infixOfB l p

/-- `a.endsWith(b)`. -/
def endsWithD (a b : String) : Bool :=
  prefixOfB a.data.reverse b.data.reverse

/-- `s.includes(pat)`. -/
def strIncludes (s pat : String) : Bool :=
  infixOfB s.data pat.data

/-- `s.toLowerCase()` (kernel-friendly, per-character). -/
def jsToLower (s : String) : String :=
  ⟨s.data.map Char.toLower⟩

/-- JS `a || b` on a nullable string `a` (both `null` and `''` are falsy). -/
def orElseStr (a : Option String) (b : String) : String :=
  match a with
  | some s => if s = "" then b else s
  | none => b

/-- JS truthiness of a nullable string. -/
def optTruthy (a : Option String) : Bool :=
  match a with
  | some s => s ≠ ""
  | none => false

/-- JS `x || null` for a nullable string (`''` collapses to `null`). -/
def jsOrNullS (a : Option String) : Option String :=
  match a with
  | some s => if s = "" then none else some s
  | none => none

/-! ## JSON values and amount normalization

The webhook body is JSON, so an amount field is a string, a number, a
boolean, `null`, or some other structure (modelled opaquely).  JSON
number literals are finite decimals, represented exactly as a mantissa
and a power-of-ten exponent so that every derived quantity is computable
by the kernel; `Dec.toQ` gives the rational value. -/

/-- An exact decimal `m * 10 ^ e`. -/
structure Dec where
  m : ℤ
  e : ℤ
deriving DecidableEq, Repr

/-- The rational value of an exact decimal. -/
def Dec.toQ (d : Dec) : ℚ := (d.m : ℚ) * (10 : ℚ) ^ d.e

inductive Json where
  | str (s : String)
  | num (d : Dec)
  | bool (b : Bool)
  | null
  | objOpaque
deriving DecidableEq, Repr

/-- JS truthiness of a JSON value (a number is falsy exactly when it is
zero, i.e. when its mantissa is zero). -/
def jsTruthy : Json → Bool
  | .str s => s ≠ ""
  | .num d => d.m ≠ 0
  | .bool b => b
  | .null => false
  | .objOpaque => true

/-- `Number(x) || 0` for a non-string JSON value (`Number` of an opaque
object is `NaN`, which `|| 0` collapses to `0`). -/
def jsToNumOr0 : Json → Dec
  | .str _ => ⟨0, 0⟩
  | .num d => d
  | .bool b => if b then ⟨1, 0⟩ else ⟨0, 0⟩
  | .null => ⟨0, 0⟩
  | .objOpaque => ⟨0, 0⟩

/-- Numeric value of a digit string. -/
def digitsToNat (l : List Char) : ℕ :=
  l.foldl (fun a c => a * 10 + (c.toNat - 48)) 0

/-- `parseFloat` on a string, as an exact decimal; `none` models `NaN`.
Finite decimal forms (optional sign, optional fraction, optional
exponent, trailing junk ignored) are modelled; `Infinity` is not. -/
def parseFloatD (s : String) : Option Dec :=
  let cs0 := s.data.dropWhile Char.isWhitespace
  let neg : Bool := match cs0 with
    | '-' :: _ => true
    | _ => false
  let cs := match cs0 with
    | '-' :: t => t
    | '+' :: t => t
    | t => t
  let ip := cs.takeWhile Char.isDigit
  let cs1 := cs.dropWhile Char.isDigit
  let fp := match cs1 with
    | '.' :: t => t.takeWhile Char.isDigit
    | _ => []
  let cs2 := match cs1 with
    | '.' :: t => t.dropWhile Char.isDigit
    | t => t
  if ip.isEmpty ∧ fp.isEmpty then none
  else
    let mAbs : ℤ := (digitsToNat (ip ++ fp) : ℤ)
    let m : ℤ := if neg then -mAbs else mAbs
    let expVal : ℤ := match cs2 with
      | e :: t =>
        if e = 'e' ∨ e = 'E' then
          let eneg : Bool := match t with
            | '-' :: _ => true
            | _ => false
          let t1 := match t with
            | '-' :: u => u
            | '+' :: u => u
            | u => u
          let ed := t1.takeWhile Char.isDigit
          if ed.isEmpty then 0
          else if eneg then -(digitsToNat ed : ℤ) else (digitsToNat ed : ℤ)
        else 0
      | [] => 0
    some ⟨m, expVal - fp.length⟩

/-- `Math.round` of the value of an exact decimal: the floor of
`value + 1/2`, computed with integer Euclidean division (the divisor is
positive, so `/` is floor division); see `jsRoundD_eq_floor`. -/
def jsRoundD (d : Dec) : ℤ :=
  if 0 ≤ d.e then d.m * 10 ^ d.e.toNat
  else (2 * d.m + 10 ^ (-d.e).toNat) / (2 * 10 ^ (-d.e).toNat)

/-- Multiplication of an exact decimal by `100`. -/
def decMul100 (d : Dec) : Dec := ⟨d.m, d.e + 2⟩

/-- `typeof raw === 'string' ? parseFloat(raw) : Number(raw) || 0`;
`none` models `NaN`. -/
def amountReais : Json → Option Dec
  | .str s => parseFloatD s
  | j => some (jsToNumOr0 j)

/-- `Math.round(amount_reais * 100)`; `none` models `NaN`. -/
def amountCentsOf (raw : Json) : Option ℤ :=
  (amountReais raw).map (fun d => jsRoundD (decMul100 d))

/-- `a || b || c || 0` over JSON values. -/
def selectRaw3 (a b c : Json) : Json :=
  if jsTruthy a then a else if jsTruthy b then b else if jsTruthy c then c else .num ⟨0, 0⟩

/-- `a || b || 0` over JSON values. -/
def selectRaw2 (a b : Json) : Json :=
  if jsTruthy a then a else if jsTruthy b then b else .num ⟨0, 0⟩

/-- Cakto `amount_cents`: derived from `data.amount || data.amount_paid
|| data.total || 0`. -/
def caktoAmountCents (amount amountPaid total : Json) : Option ℤ :=
  amountCentsOf (selectRaw3 amount amountPaid total)

/-- Hotmart `amount_cents`: derived from `price.value || purchase.amount
|| 0`. -/
def hotmartAmountCents (priceValue purchaseAmount : Json) : Option ℤ :=
  amountCentsOf (selectRaw2 priceValue purchaseAmount)

/-! ## Data model

Timestamps are integers (epoch milliseconds) for `created_at` ordering
and email-age arithmetic; ISO-string timestamps written by the handlers
are kept as opaque strings. -/

structure Order where
  id : String
  provider : String
  status : String
  customer_email : String
  customer_whatsapp : Option String
  customer_phone : Option String
  cakto_transaction_id : Option String
  hotmart_transaction_id : Option String
  cakto_payment_status : Option String
  hotmart_payment_status : Option String
  quiz_id : Option String
  paid_at : Option String
  updated_at : Option String
  created_at : ℤ
deriving DecidableEq, Repr

structure EmailLog where
  order_id : String
  email_type : String
  status : String
  created_at : ℤ
deriving DecidableEq, Repr

structure Approval where
  id : String
  order_id : String
  status : String
deriving DecidableEq, Repr

structure Job where
  id : String
  order_id : String
  quiz_id : String
  status : String
deriving DecidableEq, Repr

structure Db where
  orders : List Order
  emailLogs : List EmailLog
  approvals : List Approval
  jobs : List Job
deriving DecidableEq, Repr

/-- One row of `cakto_webhook_logs` / `hotmart_webhook_logs` as the
handlers insert it (the raw `webhook_body` column is not modelled).
`amount_cents = none` stands for SQL `null` (which is also what a `NaN`
amount serializes to). -/
structure WebhookLog where
  transaction_id : Option String
  order_id_from_webhook : Option String
  status_received : Option String
  customer_email : Option String
  amount_cents : Option ℤ
  order_found : Bool
  processing_success : Bool
  error_message : Option String
  strategy_used : String
  processing_time_ms : Option ℤ
deriving DecidableEq, Repr

/-- JSON values appearing in response bodies. -/
inductive Jv where
  | s (v : String)
  | b (v : Bool)
  | i (v : ℤ)
deriving DecidableEq, Repr

structure Response where
  code : ℕ
  body : List (String × Jv)
deriving DecidableEq, Repr

/-- Observable side effects dispatched by a handler, in order.  The
re-check query after the 2-second wait of the email-idempotency logic is
recorded as an effect; its result only influences console logging in the
source, so it is not an input of the model. -/
inductive Effect where
  | sleep (ms : ℕ)
  | invokeNotify (orderId : String)
  | recheckEmails (orderId : String)
  | invokeLyrics (orderId : String) (attempt : ℕ)
deriving DecidableEq, Repr

/-- Result of one `supabaseClient.functions.invoke('generate-lyrics-for-approval', …)`
call: either the promise rejected, or it resolved to `{data, error}`
with the three JS truthiness facts the handler inspects. -/
inductive LyricsResult where
  | throws
  | ret (hasError : Bool) (dataTruthy : Bool) (successIsFalse : Bool)
deriving DecidableEq, Repr

/-- Environment oracle: clock readings and the outcomes of external
invocations, fixed per request. -/
structure Oracle where
  now : ℤ
  nowIso : String
  elapsedMs : ℤ
  lyrics : ℕ → LyricsResult
  newJobId : String

structure RunResult where
  response : Response
  db : Db
  logs : List WebhookLog
  effects : List Effect
deriving DecidableEq, Repr

/-! ## Store queries -/

/-- Insert into a list sorted descending by `key`, keeping earlier
elements first on ties. -/
def insertDesc {α : Type} (key : α → ℤ) (a : α) : List α → List α
  | [] => [a]
  | b :: l => if key b < key a then a :: b :: l else b :: insertDesc key a l

/-- `order by key desc` (stable). -/
def sortByDesc {α : Type} (key : α → ℤ) (l : List α) : List α :=
  l.foldr (insertDesc key) []

/-- Modelled from the spec: the (out-of-repo) `isValidUUID` helper from
`src/utils/error-handler.ts` accepts a well-formed, UUID-shaped id —
five dash-separated groups of 8-4-4-4-12 hexadecimal digits. -/
def isValidUUID (s : String) : Bool :=
  let groups := (s.data.splitOn '-').map (fun g => (g.length, g.all (fun c => c.isDigit ∨ ('a' ≤ c ∧ c ≤ 'f') ∨ ('A' ≤ c ∧ c ≤ 'F'))))
  groups = [(8, true), (4, true), (4, true), (4, true), (12, true)]

/-- `.single()`: resolves to a row exactly when the filter selects one. -/
def singleRow (l : List Order) : Option Order :=
  match l with
  | [o] => some o
  | _ => none

/-! ## Phone matching -/

/-- The filter/cross-check relation on two digits-only phones:
`orderPhone === webhookPhone || orderPhone.endsWith(webhookPhone) ||
webhookPhone.endsWith(orderPhone)`. -/
def phoneRelMatch (orderPhone webhookPhone : String) : Bool :=
  orderPhone = webhookPhone || endsWithD orderPhone webhookPhone ||
    endsWithD webhookPhone orderPhone

/-- Phone match between the webhook's phone and a stored phone, both
reduced to digits first. -/
def phoneMatches (webhookPhone storedPhone : String) : Bool :=
  phoneRelMatch (digitsOnly storedPhone) (digitsOnly webhookPhone)

/-- `(o.customer_whatsapp || o.customer_phone || '')`. -/
def orderStoredPhone (o : Order) : String :=
  orElseStr o.customer_whatsapp (orElseStr o.customer_phone "")

/-! ## Cakto webhook: decoded event and matching cascade -/

/-- The fields the Cakto handler extracts from the body (after the
signature stage).  `orderIdHint` is `order_id_from_webhook`,
`transactionId` is already trimmed at extraction, `customerEmail` is
already lower-cased/trimmed (empty string when absent), exactly as in
the source. -/
structure CaktoEvent where
  event : String
  dataStatus : Option String
  bodyStatus : Option String
  orderIdHint : Option String
  transactionId : Option String
  customerEmail : String
  customerPhone : Option String
  amount : Json
  amountPaid : Json
  total : Json
  paidAt : Option String
deriving Repr

/-- Strategy 0: order id from the webhook, if a well-formed UUID, with
provider `cakto`, via `.single()`. -/
def caktoStrat0 (inp : CaktoEvent) (orders : List Order) : Option Order :=
  match inp.orderIdHint with
  | some oid =>
      if oid ≠ "" ∧ isValidUUID oid then
        singleRow (orders.filter (fun o => o.id = oid ∧ o.provider = "cakto"))
      else none
  | none => none

/-- Strategy 1: exact `cakto_transaction_id` match, only when the
trimmed transaction id has length at least 6, via `.single()`. -/
def caktoStrat1 (inp : CaktoEvent) (orders : List Order) : Option Order :=
  match inp.transactionId with
  | some t =>
      if t ≠ "" ∧ 6 ≤ (jsTrim t).length then
        singleRow (orders.filter (fun o => o.cakto_transaction_id = some t))
      else none
  | none => none

/-- Strategy 2: most recently created pending cakto order with the
event's email. -/
def caktoStrat2 (inp : CaktoEvent) (orders : List Order) : Option Order :=
  if inp.customerEmail ≠ "" then
    (sortByDesc (fun o => o.created_at)
      (orders.filter (fun o =>
        o.customer_email = inp.customerEmail ∧ o.provider = "cakto" ∧
        o.status = "pending"))).head?
  else none

/-- Strategy 3: among pending cakto orders sorted by `created_at`
descending, the first whose stored phone matches the event's phone. -/
def caktoStrat3 (inp : CaktoEvent) (orders : List Order) : Option Order :=
  match inp.customerPhone with
  | some p =>
      if p ≠ "" then
        ((sortByDesc (fun o => o.created_at)
            (orders.filter (fun o => o.provider = "cakto" ∧ o.status = "pending"))).filter
          (fun o => phoneMatches p (orderStoredPhone o))).head?
      else none
  | none => none

/-- The Cakto matching cascade: each strategy runs only if the previous
produced no match; the winning strategy's name is returned. -/
def caktoMatch (inp : CaktoEvent) (orders : List Order) : Option (Order × String) :=
  match caktoStrat0 inp orders with
  | some o => some (o, "order_id_from_webhook")
  | none =>
    match caktoStrat1 inp orders with
    | some o => some (o, "cakto_transaction_id")
    | none =>
      match caktoStrat2 inp orders with
      | some o => some (o, "email_most_recent")
      | none =>
        match caktoStrat3 inp orders with
        | some o => some (o, "phone_most_recent")
        | none => none

/-! ## Cakto webhook: normalization, validation, processing -/

/-- `const status = event || data.status || body.status || ''`. -/
def caktoStatusOf (inp : CaktoEvent) : String :=
  if inp.event ≠ "" then inp.event
  else orElseStr inp.dataStatus (orElseStr inp.bodyStatus "")

/-- Cakto status normalization (initialized to `'approved'`, reassigned
by keyword matches on the lower-cased status). -/
def caktoNormalize (event status : String) : String :=
  let statusLower := jsToLower status
  if event = "purchase_approved" ∨ strIncludes statusLower "purchase_approved" then "approved"
  else if event = "purchase_refused" ∨ strIncludes statusLower "purchase_refused" then "refused"
  else if event = "refund" ∨ strIncludes statusLower "refund" then "refunded"
  else if strIncludes statusLower "aprovada" ∨ strIncludes statusLower "approved" ∨
      statusLower = "paid" then "approved"
  else "approved"

/-- `hasOrderId || hasTransactionId || hasCustomerEmail`. -/
def caktoHasIdentifier (inp : CaktoEvent) : Bool :=
  (optTruthy inp.orderIdHint &&
    (match inp.orderIdHint with
     | some s => 0 < (jsTrim s).length
     | none => false)) ||
  (optTruthy inp.transactionId &&
    (match inp.transactionId with
     | some s => 0 < (jsTrim s).length
     | none => false)) ||
  (inp.customerEmail ≠ "" && 0 < (jsTrim inp.customerEmail).length)

/-- `shouldProcess = event === 'purchase_approved' || statusNormalized === 'approved'`. -/
def caktoShouldProcess (event statusNormalized : String) : Bool :=
  event = "purchase_approved" || statusNormalized = "approved"

/-- Cross-field validation: on a weak (non-reliable) match whose emails
disagree, fall back to the phone cross-check; `some msg` is the message
of the 400 response, `none` lets processing continue. -/
def caktoValidate (inp : CaktoEvent) (order : Order) (strategyUsed : String) : Option String :=
  let isReliableIdentifier := strategyUsed = "order_id_from_webhook" ∨
    strategyUsed = "cakto_transaction_id" ∨ strategyUsed = "phone_most_recent"
  if ¬isReliableIdentifier ∧ inp.customerEmail ≠ "" ∧
      order.customer_email ≠ inp.customerEmail then
    match inp.customerPhone, order.customer_whatsapp with
    | some p, some w =>
        if p ≠ "" ∧ w ≠ "" then
          if phoneRelMatch (digitsOnly w) (digitsOnly p) then none
          else some "Email e telefone não correspondem"
        else some "Email não corresponde"
    | _, _ => some "Email não corresponde"
  else none

/-! ## Side-effect dispatch (shared by both handlers) -/

/-- JS `x || null` on a nullable cents amount (`0` and `NaN` collapse
to `null`). -/
def jsOrNullZ (a : Option ℤ) : Option ℤ :=
  match a with
  | some z => if z = 0 then none else some z
  | none => none

/-- The most recent `order_paid` email log in `sent`/`delivered`/`pending`
for the order (`order by created_at desc limit 1`). -/
def latestOrderPaidLog (orderId : String) (logs : List EmailLog) : Option EmailLog :=
  (sortByDesc (fun l => l.created_at)
    (logs.filter (fun l =>
      l.order_id = orderId ∧ l.email_type = "order_paid" ∧
      (l.status = "sent" ∨ l.status = "delivered" ∨ l.status = "pending")))).head?

/-- Email-notification idempotency logic: skip when a terminal or stale
log row exists; when a fresh pending row exists, wait 2 seconds and
re-check (the re-check's outcome only affects console logging); invoke
`notify-payment-webhook` once when no row exists. -/
def emailDispatch (orderId : String) (logs : List EmailLog) (orc : Oracle) : List Effect :=
  match latestOrderPaidLog orderId logs with
  | some l =>
      let emailAge := orc.now - l.created_at
      if l.status = "sent" ∨ l.status = "delivered" ∨
          (l.status = "pending" ∧ 10000 < emailAge) then []
      else if l.status = "pending" ∧ emailAge ≤ 10000 then
        [Effect.sleep 2000, Effect.recheckEmails orderId]
      else []
  | none => [Effect.invokeNotify orderId]

/-- `!lyricsError && lyricsData && lyricsData.success !== false`. -/
def lyricsSuccess : LyricsResult → Bool
  | .throws => false
  | .ret hasError dataTruthy successIsFalse => !hasError && dataTruthy && !successIsFalse

/-- One pass of the bounded lyrics-generation retry loop starting at
`attempt`, with enough `fuel` to reach `maxRetries`.  A failed attempt
other than the last sleeps `1000 * attempt` milliseconds (both on an
error result and on a thrown invocation). -/
def lyricsGo (oid : String) (res : ℕ → LyricsResult) (maxRetries : ℕ) :
    ℕ → ℕ → Bool × List Effect
  | _, 0 => (false, [])
  | attempt, fuel + 1 =>
    let inv := Effect.invokeLyrics oid attempt
    if lyricsSuccess (res attempt) then (true, [inv])
    else if attempt < maxRetries then
      let rest := lyricsGo oid res maxRetries (attempt + 1) fuel
      (rest.1, inv :: Effect.sleep (1000 * attempt) :: rest.2)
    else (false, [inv])

/-- The lyrics retry loop, `for (let attempt = 1; attempt <= maxRetries; …)`. -/
def lyricsRetry (oid : String) (res : ℕ → LyricsResult) (maxRetries : ℕ) :
    Bool × List Effect :=
  lyricsGo oid res maxRetries 1 maxRetries

/-! ## Cakto webhook: log rows, processing, handler -/

/-- The `cakto_webhook_logs` insert of the no-identifier branch. -/
def caktoNoIdentLog (inp : CaktoEvent) (status : String) (ac : Option ℤ) : WebhookLog :=
  { transaction_id := jsOrNullS inp.transactionId
    order_id_from_webhook := jsOrNullS inp.orderIdHint
    status_received := jsOrNullS (some status)
    customer_email := jsOrNullS (some inp.customerEmail)
    amount_cents := jsOrNullZ ac
    order_found := false
    processing_success := false
    error_message := some "Nenhum identificador encontrado"
    strategy_used := "none"
    processing_time_ms := none }

/-- The `cakto_webhook_logs` insert of the order-not-found branch. -/
def caktoNotFoundLog (inp : CaktoEvent) (statusNormalized : String) (ac : Option ℤ) :
    WebhookLog :=
  { transaction_id := inp.transactionId
    order_id_from_webhook := inp.orderIdHint
    status_received := some statusNormalized
    customer_email := some inp.customerEmail
    amount_cents := ac
    order_found := false
    processing_success := false
    error_message := some "Pedido não encontrado"
    strategy_used := "none"
    processing_time_ms := none }

/-- The `cakto_webhook_logs` insert after a successful paid update. -/
def caktoSuccessLog (inp : CaktoEvent) (statusNormalized : String) (ac : Option ℤ)
    (strategyUsed : String) (orc : Oracle) : WebhookLog :=
  { transaction_id := inp.transactionId
    order_id_from_webhook := inp.orderIdHint
    status_received := some statusNormalized
    customer_email := some inp.customerEmail
    amount_cents := ac
    order_found := true
    processing_success := true
    error_message := none
    strategy_used := strategyUsed
    processing_time_ms := some orc.elapsedMs }

/-- The paid update applied to the matched Cakto order's row. -/
def applyCaktoUpdate (o : Order) (inp : CaktoEvent) (paidAtTimestamp : String)
    (orc : Oracle) : Order :=
  { o with
    status := "paid"
    cakto_payment_status := some "approved"
    cakto_transaction_id := inp.transactionId
    provider := "cakto"
    paid_at := some paidAtTimestamp
    updated_at := some orc.nowIso }

/-- The Cakto handler from the `shouldProcess` gate on: acknowledge
without processing, short-circuit when already paid, otherwise update
the order, insert the success log and dispatch side effects. -/
def caktoProcess (inp : CaktoEvent) (db : Db) (orc : Oracle) (order : Order)
    (strategyUsed : String) (statusNormalized : String) (ac : Option ℤ) : RunResult :=
  if caktoShouldProcess inp.event statusNormalized then
    if order.status = "paid" then
      { response := { code := 200, body := [("received", .b true),
          ("message", .s "Already processed")] }
        db := db, logs := [], effects := [] }
    else
      let paidAtTimestamp := orElseStr inp.paidAt orc.nowIso
      let newOrders := db.orders.map (fun o =>
        if o.id = order.id then applyCaktoUpdate o inp paidAtTimestamp orc else o)
      let lr := lyricsRetry order.id orc.lyrics 3
      { response := { code := 200, body := [("success", .b true),
          ("order_id", .s order.id), ("strategy_used", .s strategyUsed),
          ("lyrics_generated", .b lr.1),
          ("message", .s "Pedido marcado como pago. Email e letra serão enviados automaticamente.")] }
        db := { db with orders := newOrders }
        logs := [caktoSuccessLog inp statusNormalized ac strategyUsed orc]
        effects := emailDispatch order.id db.emailLogs orc ++ lr.2 }
  else
    { response := { code := 200, body := [("received", .b true),
        ("event", .s (if inp.event = "" then "unknown" else inp.event)),
        ("status", .s statusNormalized),
        ("message", .s "Webhook recebido mas não processado")] }
      db := db, logs := [], effects := [] }

/-- The Cakto webhook handler, from field extraction to the response
(authentication and the empty-body check happen before this point). -/
def caktoHandler (inp : CaktoEvent) (db : Db) (orc : Oracle) : RunResult :=
  let ac := caktoAmountCents inp.amount inp.amountPaid inp.total
  let status := caktoStatusOf inp
  if caktoHasIdentifier inp then
    let statusNormalized := caktoNormalize inp.event status
    match caktoMatch inp db.orders with
    | none =>
        { response := { code := 404, body := [("error", .s "Pedido não encontrado"),
            ("message", .s "Nenhum pedido corresponde aos dados fornecidos")] }
          db := db, logs := [caktoNotFoundLog inp statusNormalized ac], effects := [] }
    | some (order, strategyUsed) =>
      match caktoValidate inp order strategyUsed with
      | some msg =>
          { response := { code := 400, body := [("error", .s "Validação falhou"),
              ("message", .s msg)] }
            db := db, logs := [], effects := [] }
      | none => caktoProcess inp db orc order strategyUsed statusNormalized ac
  else
    { response := { code := 400, body := [("error", .s "Nenhum identificador encontrado"),
        ("message", .s "Webhook não contém order_id, transaction_id ou customer_email")] }
      db := db, logs := [caktoNoIdentLog inp status ac], effects := [] }

/-! ## Hotmart webhook -/

/-- The fields the Hotmart handler extracts from the body.
`transaction` is `purchase.transaction || ''`; `customerEmail` is
already lower-cased/trimmed (empty when absent). -/
structure HotmartEvent where
  event : String
  transaction : String
  customerEmail : String
  customerPhone : Option String
  priceValue : Json
  purchaseAmount : Json
  approvedDate : Option String
  dateApproved : Option String
deriving Repr

/-- Strategy 0: exact `hotmart_transaction_id` match, only when the
trimmed transaction id has length at least 6, via `.single()`. -/
def hotmartStrat0 (inp : HotmartEvent) (orders : List Order) : Option Order :=
  if inp.transaction ≠ "" ∧ 6 ≤ (jsTrim inp.transaction).length then
    singleRow (orders.filter (fun o => o.hotmart_transaction_id = some inp.transaction))
  else none

/-- Strategy 1: most recently created pending hotmart order with the
event's email. -/
def hotmartStrat1 (inp : HotmartEvent) (orders : List Order) : Option Order :=
  if inp.customerEmail ≠ "" then
    (sortByDesc (fun o => o.created_at)
      (orders.filter (fun o =>
        o.customer_email = inp.customerEmail ∧ o.provider = "hotmart" ∧
        o.status = "pending"))).head?
  else none

/-- Strategy 2: among pending hotmart orders sorted by `created_at`
descending, the first whose stored phone matches the event's phone. -/
def hotmartStrat2 (inp : HotmartEvent) (orders : List Order) : Option Order :=
  match inp.customerPhone with
  | some p =>
      if p ≠ "" then
        ((sortByDesc (fun o => o.created_at)
            (orders.filter (fun o => o.provider = "hotmart" ∧ o.status = "pending"))).filter
          (fun o => phoneMatches p (orderStoredPhone o))).head?
      else none
  | none => none

/-- The Hotmart matching cascade. -/
def hotmartMatch (inp : HotmartEvent) (orders : List Order) : Option (Order × String) :=
  match hotmartStrat0 inp orders with
  | some o => some (o, "hotmart_transaction_id")
  | none =>
    match hotmartStrat1 inp orders with
    | some o => some (o, "email_most_recent")
    | none =>
      match hotmartStrat2 inp orders with
      | some o => some (o, "phone_most_recent")
      | none => none

/-- Hotmart status normalization on the lower-cased event. -/
def hotmartNormalize (event : String) : String :=
  let eventLower := jsToLower event
  if eventLower = "purchase_approved" ∨ strIncludes eventLower "approved" then "approved"
  else if eventLower = "purchase_cancelled" ∨ strIncludes eventLower "cancelled" then "cancelled"
  else if eventLower = "purchase_chargeback" ∨ strIncludes eventLower "chargeback" then "chargeback"
  else "approved"

/-- `hasTransactionId || hasCustomerEmail`. -/
def hotmartHasIdentifier (inp : HotmartEvent) : Bool :=
  (inp.transaction ≠ "" && 0 < (jsTrim inp.transaction).length) ||
  (inp.customerEmail ≠ "" && 0 < (jsTrim inp.customerEmail).length)

/-- `shouldProcess = eventLower === 'purchase_approved' || statusNormalized === 'approved'`. -/
def hotmartShouldProcess (event statusNormalized : String) : Bool :=
  jsToLower event = "purchase_approved" || statusNormalized = "approved"

/-- Hotmart cross-field validation (reliable identifiers: transaction id
and phone matches). -/
def hotmartValidate (inp : HotmartEvent) (order : Order) (strategyUsed : String) :
    Option String :=
  let isReliableIdentifier := strategyUsed = "hotmart_transaction_id" ∨
    strategyUsed = "phone_most_recent"
  if ¬isReliableIdentifier ∧ inp.customerEmail ≠ "" ∧
      order.customer_email ≠ inp.customerEmail then
    match inp.customerPhone, order.customer_whatsapp with
    | some p, some w =>
        if p ≠ "" ∧ w ≠ "" then
          if phoneRelMatch (digitsOnly w) (digitsOnly p) then none
          else some "Email e telefone não correspondem"
        else some "Email não corresponde"
    | _, _ => some "Email não corresponde"
  else none

/-- `const paid_at = purchase.approved_date || purchase.date_approved ||
new Date().toISOString()`. -/
def hotmartPaidAt (inp : HotmartEvent) (orc : Oracle) : String :=
  orElseStr inp.approvedDate (orElseStr inp.dateApproved orc.nowIso)

/-- The `hotmart_webhook_logs` insert of the no-identifier branch. -/
def hotmartNoIdentLog (inp : HotmartEvent) (ac : Option ℤ) : WebhookLog :=
  { transaction_id := jsOrNullS (some inp.transaction)
    order_id_from_webhook := none
    status_received := jsOrNullS (some inp.event)
    customer_email := jsOrNullS (some inp.customerEmail)
    amount_cents := jsOrNullZ ac
    order_found := false
    processing_success := false
    error_message := some "Nenhum identificador encontrado"
    strategy_used := "none"
    processing_time_ms := none }

/-- The `hotmart_webhook_logs` insert of the order-not-found branch. -/
def hotmartNotFoundLog (inp : HotmartEvent) (statusNormalized : String) (ac : Option ℤ) :
    WebhookLog :=
  { transaction_id := some inp.transaction
    order_id_from_webhook := none
    status_received := some statusNormalized
    customer_email := some inp.customerEmail
    amount_cents := ac
    order_found := false
    processing_success := false
    error_message := some "Pedido não encontrado"
    strategy_used := "none"
    processing_time_ms := none }

/-- The `hotmart_webhook_logs` insert after a successful paid update. -/
def hotmartSuccessLog (inp : HotmartEvent) (statusNormalized : String) (ac : Option ℤ)
    (strategyUsed : String) (orc : Oracle) : WebhookLog :=
  { transaction_id := some inp.transaction
    order_id_from_webhook := none
    status_received := some statusNormalized
    customer_email := some inp.customerEmail
    amount_cents := ac
    order_found := true
    processing_success := true
    error_message := none
    strategy_used := strategyUsed
    processing_time_ms := some orc.elapsedMs }

/-- The paid update applied to the matched Hotmart order's row (applied
even when the row is already paid). -/
def applyHotmartUpdate (o : Order) (inp : HotmartEvent) (paidAtTimestamp : String)
    (orc : Oracle) : Order :=
  { o with
    status := "paid"
    hotmart_payment_status := some "approved"
    hotmart_transaction_id := some inp.transaction
    provider := "hotmart"
    paid_at := if paidAtTimestamp ≠ "" then some paidAtTimestamp else o.paid_at
    updated_at := some orc.nowIso }

/-- `ensureJobExists`: look the job up by order id, creating a pending
one when absent (store operations modelled as succeeding). -/
def ensureJobExists (jobs : List Job) (orderId quizId : String) (orc : Oracle) :
    Option String × List Job :=
  match jobs.filter (fun j => j.order_id = orderId) with
  | [] => (some orc.newJobId, jobs ++ [⟨orc.newJobId, orderId, quizId, "pending"⟩])
  | j :: _ => (some j.id, jobs)

/-- The lyrics stage of the Hotmart handler: gate on no existing
approval and a resolvable `quiz_id`, ensure a job, then run the bounded
retry loop.  Returns the jobs table after the stage and the loop's
result. -/
def hotmartLyricsStage (db : Db) (updated : Order) (orc : Oracle) :
    List Job × (Bool × List Effect) :=
  if (db.approvals.filter (fun a => a.order_id = updated.id)).isEmpty then
    match updated.quiz_id with
    | none => (db.jobs, (false, []))
    | some qid =>
        match ensureJobExists db.jobs updated.id qid orc with
        | (none, jobs1) => (jobs1, (false, []))
        | (some _, jobs1) => (jobs1, lyricsRetry updated.id orc.lyrics 3)
  else (db.jobs, (false, []))

/-- The Hotmart handler from the `shouldProcess` gate on.  There is no
already-paid short-circuit: the update, the success log and the side
effects run regardless of the order's current status. -/
def hotmartProcess (inp : HotmartEvent) (db : Db) (orc : Oracle) (order : Order)
    (strategyUsed : String) (statusNormalized : String) (ac : Option ℤ) : RunResult :=
  if hotmartShouldProcess inp.event statusNormalized then
    let paidAtTimestamp := hotmartPaidAt inp orc
    let updated := applyHotmartUpdate order inp paidAtTimestamp orc
    let newOrders := db.orders.map (fun o =>
      if o.id = order.id then applyHotmartUpdate o inp paidAtTimestamp orc else o)
    let stage := hotmartLyricsStage db updated orc
    { response := { code := 200, body := [("success", .b true),
        ("order_id", .s order.id), ("strategy_used", .s strategyUsed),
        ("lyrics_generated", .b stage.2.1),
        ("message", .s "Pedido marcado como pago. Email e letra serão enviados automaticamente.")] }
      db := { db with orders := newOrders, jobs := stage.1 }
      logs := [hotmartSuccessLog inp statusNormalized ac strategyUsed orc]
      effects := emailDispatch order.id db.emailLogs orc ++ stage.2.2 }
  else
    { response := { code := 200, body := [("received", .b true),
        ("event", .s (if inp.event = "" then "unknown" else inp.event)),
        ("status", .s statusNormalized),
        ("message", .s "Webhook recebido mas não processado")] }
      db := db, logs := [], effects := [] }

/-- The Hotmart webhook handler, from field extraction to the response. -/
def hotmartHandler (inp : HotmartEvent) (db : Db) (orc : Oracle) : RunResult :=
  let ac := hotmartAmountCents inp.priceValue inp.purchaseAmount
  if hotmartHasIdentifier inp then
    let statusNormalized := hotmartNormalize inp.event
    match hotmartMatch inp db.orders with
    | none =>
        { response := { code := 404, body := [("error", .s "Pedido não encontrado"),
            ("message", .s "Nenhum pedido corresponde aos dados fornecidos")] }
          db := db, logs := [hotmartNotFoundLog inp statusNormalized ac], effects := [] }
    | some (order, strategyUsed) =>
      match hotmartValidate inp order strategyUsed with
      | some msg =>
          { response := { code := 400, body := [("error", .s "Validação falhou"),
              ("message", .s msg)] }
            db := db, logs := [], effects := [] }
      | none => hotmartProcess inp db orc order strategyUsed statusNormalized ac
  else
    { response := { code := 400, body := [("error", .s "Nenhum identificador encontrado"),
        ("message", .s "Webhook não contém transaction_id ou customer_email")] }
      db := db, logs := [hotmartNoIdentLog inp ac], effects := [] }

end MusicLovely

namespace MusicLovely

/-! ## Concrete fixtures for witnesses and counterexamples -/

def fxPendingCakto : Order :=
  { id := "11111111-1111-1111-1111-111111111111", provider := "cakto",
    status := "pending", customer_email := "a@b.com",
    customer_whatsapp := some "11999990000", customer_phone := none,
    cakto_transaction_id := some "tx123456", hotmart_transaction_id := none,
    cakto_payment_status := none, hotmart_payment_status := none,
    quiz_id := some "q1", paid_at := none, updated_at := none, created_at := 100 }

def fxPaidCakto : Order := { fxPendingCakto with status := "paid" }

def fxPendingHot : Order :=
  { fxPendingCakto with
    id := "22222222-2222-2222-2222-222222222222"
    provider := "hotmart"
    cakto_transaction_id := none
    hotmart_transaction_id := some "HP1234567" }

def fxPaidHot : Order := { fxPendingHot with status := "paid" }

def mkDb (os : List Order) : Db :=
  { orders := os, emailLogs := [], approvals := [], jobs := [] }

/-- Oracle whose lyrics invocations always return an error result. -/
def fxOrcFail : Oracle :=
  { now := 20000, nowIso := "2026-01-01T00:00:00.000Z", elapsedMs := 5,
    lyrics := fun _ => .ret true false false, newJobId := "job-1" }

/-- Oracle whose lyrics invocation fails twice and succeeds on the third
attempt. -/
def fxOrcThird : Oracle :=
  { fxOrcFail with
    lyrics := fun a => if a = 3 then .ret false true false else .ret true false false }

def fxCaktoApproved : CaktoEvent :=
  { event := "purchase_approved", dataStatus := none, bodyStatus := none,
    orderIdHint := none, transactionId := some "tx123456",
    customerEmail := "a@b.com", customerPhone := none,
    amount := .str "150.5", amountPaid := .null, total := .null,
    paidAt := some "2026-01-01T00:00:00.000Z" }

def fxCaktoRefused : CaktoEvent := { fxCaktoApproved with event := "purchase_refused" }

def fxCaktoNoMatch : CaktoEvent :=
  { fxCaktoApproved with transactionId := some "zz999999", customerEmail := "zz@b.com" }

def fxHotApproved : HotmartEvent :=
  { event := "PURCHASE_APPROVED", transaction := "HP1234567",
    customerEmail := "a@b.com", customerPhone := none,
    priceValue := .str "150.5", purchaseAmount := .null,
    approvedDate := some "2026-01-01T00:00:00.000Z", dateApproved := none }

/-- A pending cakto order whose stored whatsapp has no digits at all. -/
def fxNoDigitsCakto : Order :=
  { fxPendingCakto with
    id := "33333333-3333-3333-3333-333333333333"
    customer_whatsapp := some "x-y"
    cakto_transaction_id := none }

/-- A pending hotmart order whose stored whatsapp has no digits at all. -/
def fxNoDigitsHot : Order :=
  { fxPendingHot with
    id := "44444444-4444-4444-4444-444444444444"
    customer_whatsapp := some "x-y"
    hotmart_transaction_id := none }

def fxCaktoPhoneEv : CaktoEvent :=
  { fxCaktoApproved with
    transactionId := none
    customerEmail := ""
    customerPhone := some "123" }

def fxHotPhoneEv : HotmartEvent :=
  { fxHotApproved with
    transaction := ""
    customerEmail := ""
    customerPhone := some "123" }

/-- A pending cakto order carrying the short transaction id `tx123`. -/
def fxShortTxCakto : Order := { fxPendingCakto with cakto_transaction_id := some "tx123" }

def fxC10CaktoEv : CaktoEvent := { fxCaktoApproved with transactionId := some "tx123" }

def fxShortTxHot : Order := { fxPendingHot with hotmart_transaction_id := some "tx123" }

def fxC10HotEv : HotmartEvent := { fxHotApproved with transaction := "tx123" }

/-- A lyrics invocation resolving with `error = null` and a falsy `data`
payload (so `success` is not `false` — there is no `success` field). -/
def fxResNoData : ℕ → LyricsResult := fun _ => .ret false false false

/-- The most recent `order_paid` email log is `pending` and 2 seconds
old at the oracle's clock reading of 20000. -/
def fxFreshPendingLog : EmailLog :=
  { order_id := "o1", email_type := "order_paid", status := "pending",
    created_at := 18000 }

def fxSentLog : EmailLog :=
  { order_id := "o1", email_type := "order_paid", status := "sent",
    created_at := 1000 }

/-- A Hotmart `PURCHASE_CANCELLED` event for the same stored order. -/
def fxHotCancelled : HotmartEvent := { fxHotApproved with event := "PURCHASE_CANCELLED" }

end MusicLovely

namespace MusicLovely

/-! ## General lemmas about the embedded store operations -/

theorem mem_insertDesc {α : Type} (key : α → ℤ) (a b : α) (l : List α) :
    b ∈ insertDesc key a l ↔ b = a ∨ b ∈ l := by
  induction l with
  | nil => simp [insertDesc]
  | cons c l ih =>
      simp only [insertDesc]
      split
      · simp [List.mem_cons]
      · simp only [List.mem_cons, ih]
        tauto

theorem mem_sortByDesc {α : Type} (key : α → ℤ) (b : α) (l : List α) :
    b ∈ sortByDesc key l ↔ b ∈ l := by
  induction l with
  | nil => simp [sortByDesc]
  | cons c l ih =>
      have : sortByDesc key (c :: l) = insertDesc key c (sortByDesc key l) := rfl
      rw [this, mem_insertDesc]
      simp [ih]

theorem prefixOfB_nil (l : List Char) : prefixOfB l [] = true := by
  cases l <;> rfl

/-- Every string ends with the empty string. -/
theorem endsWithD_empty (a : String) : endsWithD a "" = true := by
  unfold endsWithD
  exact prefixOfB_nil _

/-- A phone whose digits-only form is empty matches anything (and
conversely an empty webhook phone matches any stored phone). -/
theorem phoneRelMatch_of_empty (orderPhone webhookPhone : String) :
    digitsOnly orderPhone = "" ∨ digitsOnly webhookPhone = "" →
    phoneRelMatch (digitsOnly orderPhone) (digitsOnly webhookPhone) = true := by
  intro h
  unfold phoneRelMatch
  rcases h with h | h <;> rw [h]
  · rw [endsWithD_empty]
    simp
  · rw [endsWithD_empty]
    simp

/-! ## The cross-field validator is vacuous after a successful match

The only non-reliable strategy is the email strategy, and it only
matches orders whose stored email equals the event's email, so the
mismatch branch of the validator can never fire. -/

theorem caktoStrat2_email_eq {inp : CaktoEvent} {orders : List Order} {o : Order}
    (h : caktoStrat2 inp orders = some o) : o.customer_email = inp.customerEmail := by
  unfold caktoStrat2 at h
  split at h
  · have hmem : o ∈ sortByDesc (fun o => o.created_at)
        (orders.filter (fun o =>
          o.customer_email = inp.customerEmail ∧ o.provider = "cakto" ∧
          o.status = "pending")) := by
      cases hs : sortByDesc (fun o => o.created_at)
        (orders.filter (fun o =>
          o.customer_email = inp.customerEmail ∧ o.provider = "cakto" ∧
          o.status = "pending")) with
      | nil => rw [hs] at h; simp at h
      | cons x xs =>
          rw [hs] at h
          simp at h
          rw [← h]
          exact List.mem_cons_self x xs
    rw [mem_sortByDesc] at hmem
    have hP := of_decide_eq_true ((List.mem_filter.mp hmem).2)
    exact hP.1
  · simp at h

theorem hotmartStrat1_email_eq {inp : HotmartEvent} {orders : List Order} {o : Order}
    (h : hotmartStrat1 inp orders = some o) : o.customer_email = inp.customerEmail := by
  unfold hotmartStrat1 at h
  split at h
  · have hmem : o ∈ sortByDesc (fun o => o.created_at)
        (orders.filter (fun o =>
          o.customer_email = inp.customerEmail ∧ o.provider = "hotmart" ∧
          o.status = "pending")) := by
      cases hs : sortByDesc (fun o => o.created_at)
        (orders.filter (fun o =>
          o.customer_email = inp.customerEmail ∧ o.provider = "hotmart" ∧
          o.status = "pending")) with
      | nil => rw [hs] at h; simp at h
      | cons x xs =>
          rw [hs] at h
          simp at h
          rw [← h]
          exact List.mem_cons_self x xs
    rw [mem_sortByDesc] at hmem
    have hP := of_decide_eq_true ((List.mem_filter.mp hmem).2)
    exact hP.1
  · simp at h

theorem caktoValidate_none_of_match {inp : CaktoEvent} {orders : List Order}
    {o : Order} {nm : String} (h : caktoMatch inp orders = some (o, nm)) :
    caktoValidate inp o nm = none := by
  unfold caktoMatch at h
  unfold caktoValidate
  cases h0 : caktoStrat0 inp orders with
  | some o0 =>
      rw [h0] at h
      simp at h
      rw [← h.2, ← h.1]
      simp
  | none =>
    rw [h0] at h
    cases h1 : caktoStrat1 inp orders with
    | some o1 =>
        rw [h1] at h
        simp at h
        rw [← h.2, ← h.1]
        simp
    | none =>
      rw [h1] at h
      cases h2 : caktoStrat2 inp orders with
      | some o2 =>
          rw [h2] at h
          simp at h
          have hemail := caktoStrat2_email_eq h2
          rw [h.1] at hemail
          rw [← h.2]
          simp [hemail]
      | none =>
        rw [h2] at h
        cases h3 : caktoStrat3 inp orders with
        | some o3 =>
            rw [h3] at h
            simp at h
            rw [← h.2, ← h.1]
            simp
        | none => rw [h3] at h; simp at h

theorem hotmartValidate_none_of_match {inp : HotmartEvent} {orders : List Order}
    {o : Order} {nm : String} (h : hotmartMatch inp orders = some (o, nm)) :
    hotmartValidate inp o nm = none := by
  unfold hotmartMatch at h
  unfold hotmartValidate
  cases h0 : hotmartStrat0 inp orders with
  | some o0 =>
      rw [h0] at h
      simp at h
      rw [← h.2, ← h.1]
      simp
  | none =>
    rw [h0] at h
    cases h1 : hotmartStrat1 inp orders with
    | some o1 =>
        rw [h1] at h
        simp at h
        have hemail := hotmartStrat1_email_eq h1
        rw [h.1] at hemail
        rw [← h.2]
        simp [hemail]
    | none =>
      rw [h1] at h
      cases h2 : hotmartStrat2 inp orders with
      | some o2 =>
          rw [h2] at h
          simp at h
          rw [← h.2, ← h.1]
          simp
      | none => rw [h2] at h; simp at h

/-! ## The integer rounding computation agrees with `Math.round` -/

theorem decMul100_toQ (d : Dec) : (decMul100 d).toQ = d.toQ * 100 := by
  unfold decMul100 Dec.toQ
  simp only
  rw [zpow_add₀ (by norm_num : (10 : ℚ) ≠ 0)]
  norm_num
  ring

theorem jsRoundD_eq_floor (d : Dec) : jsRoundD d = ⌊d.toQ + 1/2⌋ := by
  unfold jsRoundD Dec.toQ
  by_cases h : 0 ≤ d.e
  · rw [if_pos h]
    have h10 : (10 : ℚ) ^ d.e = (10 : ℚ) ^ d.e.toNat := by
      rw [← zpow_natCast (10 : ℚ) d.e.toNat, Int.toNat_of_nonneg h]
    rw [h10]
    have hc : (d.m : ℚ) * (10 : ℚ) ^ d.e.toNat = ((d.m * 10 ^ d.e.toNat : ℤ) : ℚ) := by
      push_cast
      ring
    rw [hc, Int.floor_int_add]
    norm_num
  · rw [if_neg h]
    have hk : (((-d.e).toNat : ℤ)) = -d.e := Int.toNat_of_nonneg (by omega)
    have h10 : (10 : ℚ) ^ d.e = ((10 : ℚ) ^ (-d.e).toNat)⁻¹ := by
      rw [← zpow_natCast (10 : ℚ) (-d.e).toNat, hk, ← zpow_neg, neg_neg]
    rw [h10]
    have hpow : (0 : ℚ) < (10 : ℚ) ^ (-d.e).toNat := by positivity
    have hval : (d.m : ℚ) * ((10 : ℚ) ^ (-d.e).toNat)⁻¹ + 1/2 =
        ((2 * d.m + 10 ^ (-d.e).toNat : ℤ) : ℚ) / ((2 * 10 ^ (-d.e).toNat : ℕ) : ℚ) := by
      push_cast
      field_simp
      ring
    rw [hval, Rat.floor_intCast_div_natCast]
    norm_cast

/-! ## Handler-unfolding lemmas -/

theorem caktoHandler_eq_process {inp : CaktoEvent} {db : Db} {orc : Oracle}
    {o : Order} {nm : String}
    (hId : caktoHasIdentifier inp = true)
    (hm : caktoMatch inp db.orders = some (o, nm)) :
    caktoHandler inp db orc =
      caktoProcess inp db orc o nm (caktoNormalize inp.event (caktoStatusOf inp))
        (caktoAmountCents inp.amount inp.amountPaid inp.total) := by
  have hv := caktoValidate_none_of_match hm
  unfold caktoHandler
  rw [if_pos hId]
  simp only [hm, hv]

theorem hotmartHandler_eq_process {inp : HotmartEvent} {db : Db} {orc : Oracle}
    {o : Order} {nm : String}
    (hId : hotmartHasIdentifier inp = true)
    (hm : hotmartMatch inp db.orders = some (o, nm)) :
    hotmartHandler inp db orc =
      hotmartProcess inp db orc o nm (hotmartNormalize inp.event)
        (hotmartAmountCents inp.priceValue inp.purchaseAmount) := by
  have hv := hotmartValidate_none_of_match hm
  unfold hotmartHandler
  rw [if_pos hId]
  simp only [hm, hv]

end MusicLovely


namespace MusicLovely

/-! ## Claims -/

/-- C7: the phone-match relation holds between event phone
`"+55 11 99999-0000"` and stored phone `"11999990000"` in both
orderings: after reducing each side to digits, full equality or suffix
containment in either direction counts as a match. -/
theorem c7_phone_suffix_match_both_orderings :
    phoneMatches "+55 11 99999-0000" "11999990000" = true ∧
    phoneMatches "11999990000" "+55 11 99999-0000" = true := by
  decide

/-- C9: a phone whose digits-only normalization is empty satisfies the
phone-match relation (used by the phone strategies and cross-checks of
both handlers) against any phone, because every string ends with the
empty string; consequently each provider's phone strategy selects the
most-recently-created pending order of that provider whenever that
order's stored phone normalizes to the empty string and the event
carries a phone. -/
theorem c9_empty_digit_phone_matches_everything :
    (∀ webhookPhone storedPhone : String, digitsOnly storedPhone = "" →
      phoneMatches webhookPhone storedPhone = true) ∧
    (∀ (inp : CaktoEvent) (orders : List Order) (o : Order) (rest : List Order)
        (p : String), inp.customerPhone = some p → p ≠ "" →
      sortByDesc (fun o => o.created_at)
        (orders.filter (fun o => o.provider = "cakto" ∧ o.status = "pending")) =
          o :: rest →
      digitsOnly (orderStoredPhone o) = "" →
      caktoStrat3 inp orders = some o) ∧
    (∀ (inp : HotmartEvent) (orders : List Order) (o : Order) (rest : List Order)
        (p : String), inp.customerPhone = some p → p ≠ "" →
      sortByDesc (fun o => o.created_at)
        (orders.filter (fun o => o.provider = "hotmart" ∧ o.status = "pending")) =
          o :: rest →
      digitsOnly (orderStoredPhone o) = "" →
      hotmartStrat2 inp orders = some o) := by
  have hrel : ∀ webhookPhone storedPhone : String, digitsOnly storedPhone = "" →
      phoneMatches webhookPhone storedPhone = true := by
    intro p s h
    unfold phoneMatches
    exact phoneRelMatch_of_empty s p (Or.inl h)
  refine ⟨hrel, ?_, ?_⟩
  · intro inp orders o rest p hp hpne hsort hdig
    unfold caktoStrat3
    simp only [hp]
    rw [if_pos hpne, hsort]
    have hm := hrel p (orderStoredPhone o) hdig
    simp [List.filter, hm]
  · intro inp orders o rest p hp hpne hsort hdig
    unfold hotmartStrat2
    simp only [hp]
    rw [if_pos hpne, hsort]
    have hm := hrel p (orderStoredPhone o) hdig
    simp [List.filter, hm]

/-- Witness for C9 at concrete inputs: the event phone `"123"` selects
the pending order whose stored whatsapp `"x-y"` has no digits, for both
providers. -/
theorem c9_empty_digit_phone_matches_everything_witness :
    phoneMatches "123" "x-y" = true ∧
    caktoStrat3 fxCaktoPhoneEv [fxNoDigitsCakto] = some fxNoDigitsCakto ∧
    hotmartStrat2 fxHotPhoneEv [fxNoDigitsHot] = some fxNoDigitsHot := by
  have h := c9_empty_digit_phone_matches_everything
  refine ⟨h.1 "123" "x-y" (by decide), ?_, ?_⟩
  · exact h.2.1 fxCaktoPhoneEv [fxNoDigitsCakto] fxNoDigitsCakto [] "123"
      (by decide) (by decide) (by decide) (by decide)
  · exact h.2.2 fxHotPhoneEv [fxNoDigitsHot] fxNoDigitsHot [] "123"
      (by decide) (by decide) (by decide) (by decide)

/-- C10: both matchers attempt the transaction-id strategy only when the
trimmed transaction id has length at least 6; any shorter id (such as
`"tx123"`) makes that strategy yield nothing and the cascade falls
through to the email strategy. -/
theorem c10_short_transaction_id_skips_tx_strategy :
    (∀ (inp : CaktoEvent) (orders : List Order),
      (match inp.transactionId with
       | some t => (jsTrim t).length < 6
       | none => True) →
      caktoStrat1 inp orders = none ∧
      caktoMatch inp orders =
        (match caktoStrat0 inp orders with
         | some o => some (o, "order_id_from_webhook")
         | none =>
           match caktoStrat2 inp orders with
           | some o => some (o, "email_most_recent")
           | none =>
             match caktoStrat3 inp orders with
             | some o => some (o, "phone_most_recent")
             | none => none)) ∧
    (∀ (inp : HotmartEvent) (orders : List Order),
      (jsTrim inp.transaction).length < 6 →
      hotmartStrat0 inp orders = none ∧
      hotmartMatch inp orders =
        (match hotmartStrat1 inp orders with
         | some o => some (o, "email_most_recent")
         | none =>
           match hotmartStrat2 inp orders with
           | some o => some (o, "phone_most_recent")
           | none => none)) := by
  constructor
  · intro inp orders hshort
    have h1 : caktoStrat1 inp orders = none := by
      unfold caktoStrat1
      cases htx : inp.transactionId with
      | none => rfl
      | some t =>
          rw [htx] at hshort
          show (if t ≠ "" ∧ 6 ≤ (jsTrim t).length then
            singleRow (orders.filter (fun o => o.cakto_transaction_id = some t))
            else none) = none
          rw [if_neg]
          intro hc
          omega
    refine ⟨h1, ?_⟩
    unfold caktoMatch
    rw [h1]
  · intro inp orders hshort
    have h0 : hotmartStrat0 inp orders = none := by
      unfold hotmartStrat0
      rw [if_neg]
      intro hc
      omega
    refine ⟨h0, ?_⟩
    unfold hotmartMatch
    rw [h0]

/-- Witness for C10: with transaction id `"tx123"` both matchers skip
the transaction strategy — even though a stored order carries that very
transaction id — and match via the email strategy instead. -/
theorem c10_short_transaction_id_skips_tx_strategy_witness :
    caktoStrat1 fxC10CaktoEv [fxShortTxCakto] = none ∧
    caktoMatch fxC10CaktoEv [fxShortTxCakto] = some (fxShortTxCakto, "email_most_recent") ∧
    hotmartStrat0 fxC10HotEv [fxShortTxHot] = none ∧
    hotmartMatch fxC10HotEv [fxShortTxHot] = some (fxShortTxHot, "email_most_recent") := by
  have h := c10_short_transaction_id_skips_tx_strategy
  have hc := h.1 fxC10CaktoEv [fxShortTxCakto]
    (by exact (by decide : (jsTrim "tx123").length < 6))
  have hh := h.2 fxC10HotEv [fxShortTxHot] (by decide)
  refine ⟨hc.1, ?_, hh.1, ?_⟩
  · rw [hc.2]
    decide
  · rw [hh.2]
    decide

end MusicLovely

namespace MusicLovely

/-- C4 counterexample: on results with no error and no explicit
`success === false` but a falsy data payload, the loop does NOT stop at
the first attempt as the claim's stop condition predicts — it runs all
three attempts and reports failure, because the code's condition also
requires `lyricsData` to be truthy. -/
theorem c4_counterexample :
    lyricsRetry "o1" fxResNoData 3 ≠ (true, [Effect.invokeLyrics "o1" 1]) ∧
    lyricsRetry "o1" fxResNoData 3 =
      (false, [Effect.invokeLyrics "o1" 1, Effect.sleep 1000,
        Effect.invokeLyrics "o1" 2, Effect.sleep 2000,
        Effect.invokeLyrics "o1" 3]) ∧
    lyricsSuccess (fxResNoData 1) = false := by
  refine ⟨?_, by decide, by decide⟩
  decide

/-- C4 (amended): the lyrics-generation call after marking an order paid
is attempted at most 3 times; the loop stops at the first result that
has no error, a TRUTHY data payload, and a `success` field that is not
`false`; the delays between attempts are 1 second then 2 seconds; and
when every attempt fails the Cakto webhook still answers 200 with
`lyrics_generated = false`. -/
theorem c4_lyrics_retry_bounded :
    (∀ (oid : String) (res : ℕ → LyricsResult),
      (lyricsSuccess (res 1) = true →
        lyricsRetry oid res 3 = (true, [Effect.invokeLyrics oid 1])) ∧
      (lyricsSuccess (res 1) = false → lyricsSuccess (res 2) = true →
        lyricsRetry oid res 3 =
          (true, [Effect.invokeLyrics oid 1, Effect.sleep 1000,
            Effect.invokeLyrics oid 2])) ∧
      (lyricsSuccess (res 1) = false → lyricsSuccess (res 2) = false →
        lyricsSuccess (res 3) = true →
        lyricsRetry oid res 3 =
          (true, [Effect.invokeLyrics oid 1, Effect.sleep 1000,
            Effect.invokeLyrics oid 2, Effect.sleep 2000,
            Effect.invokeLyrics oid 3])) ∧
      (lyricsSuccess (res 1) = false → lyricsSuccess (res 2) = false →
        lyricsSuccess (res 3) = false →
        lyricsRetry oid res 3 =
          (false, [Effect.invokeLyrics oid 1, Effect.sleep 1000,
            Effect.invokeLyrics oid 2, Effect.sleep 2000,
            Effect.invokeLyrics oid 3]))) ∧
    (∀ (inp : CaktoEvent) (db : Db) (orc : Oracle) (o : Order) (nm : String),
      caktoHasIdentifier inp = true →
      caktoMatch inp db.orders = some (o, nm) →
      caktoShouldProcess inp.event (caktoNormalize inp.event (caktoStatusOf inp)) = true →
      o.status ≠ "paid" →
      (∀ i, lyricsSuccess (orc.lyrics i) = false) →
      (caktoHandler inp db orc).response.code = 200 ∧
      ("lyrics_generated", Jv.b false) ∈ (caktoHandler inp db orc).response.body) := by
  have hchar : ∀ (oid : String) (res : ℕ → LyricsResult),
      (lyricsSuccess (res 1) = true →
        lyricsRetry oid res 3 = (true, [Effect.invokeLyrics oid 1])) ∧
      (lyricsSuccess (res 1) = false → lyricsSuccess (res 2) = true →
        lyricsRetry oid res 3 =
          (true, [Effect.invokeLyrics oid 1, Effect.sleep 1000,
            Effect.invokeLyrics oid 2])) ∧
      (lyricsSuccess (res 1) = false → lyricsSuccess (res 2) = false →
        lyricsSuccess (res 3) = true →
        lyricsRetry oid res 3 =
          (true, [Effect.invokeLyrics oid 1, Effect.sleep 1000,
            Effect.invokeLyrics oid 2, Effect.sleep 2000,
            Effect.invokeLyrics oid 3])) ∧
      (lyricsSuccess (res 1) = false → lyricsSuccess (res 2) = false →
        lyricsSuccess (res 3) = false →
        lyricsRetry oid res 3 =
          (false, [Effect.invokeLyrics oid 1, Effect.sleep 1000,
            Effect.invokeLyrics oid 2, Effect.sleep 2000,
            Effect.invokeLyrics oid 3])) := by
    intro oid res
    refine ⟨?_, ?_, ?_, ?_⟩
    · intro h1
      simp [lyricsRetry, lyricsGo, h1]
    · intro h1 h2
      simp [lyricsRetry, lyricsGo, h1, h2]
    · intro h1 h2 h3
      simp [lyricsRetry, lyricsGo, h1, h2, h3]
    · intro h1 h2 h3
      simp [lyricsRetry, lyricsGo, h1, h2, h3]
  refine ⟨hchar, ?_⟩
  intro inp db orc o nm hId hm hsp hnp hfail
  have hloop := (hchar o.id orc.lyrics).2.2.2 (hfail 1) (hfail 2) (hfail 3)
  rw [caktoHandler_eq_process hId hm]
  unfold caktoProcess
  rw [hsp]
  simp only [if_true]
  rw [if_neg hnp]
  rw [hloop]
  simp

/-- Witness for C4 at concrete inputs: an oracle failing twice and
succeeding on the third attempt yields `lyrics_generated = true` after
delays of 1s and 2s, and an always-failing oracle still lets the Cakto
webhook answer 200 with `lyrics_generated = false`. -/
theorem c4_lyrics_retry_bounded_witness :
    lyricsRetry fxPendingCakto.id fxOrcThird.lyrics 3 =
      (true, [Effect.invokeLyrics fxPendingCakto.id 1, Effect.sleep 1000,
        Effect.invokeLyrics fxPendingCakto.id 2, Effect.sleep 2000,
        Effect.invokeLyrics fxPendingCakto.id 3]) ∧
    (caktoHandler fxCaktoApproved (mkDb [fxPendingCakto]) fxOrcFail).response.code = 200 ∧
    ("lyrics_generated", Jv.b false) ∈
      (caktoHandler fxCaktoApproved (mkDb [fxPendingCakto]) fxOrcFail).response.body := by
  have h := c4_lyrics_retry_bounded
  refine ⟨(h.1 fxPendingCakto.id fxOrcThird.lyrics).2.2.1 (by decide) (by decide) (by decide),
    h.2 fxCaktoApproved (mkDb [fxPendingCakto]) fxOrcFail fxPendingCakto
      "cakto_transaction_id" (by decide) (by decide) (by decide) (by decide)
      (fun _ => rfl)⟩

/-- C8 counterexample: with a fresh (2-second-old) pending `order_paid`
log, the handler waits 2 seconds and re-checks, but never triggers the
notification — not even when the re-check would show the email still
pending — contradicting the claim's "otherwise proceeds to trigger the
notification anyway". -/
theorem c8_counterexample :
    emailDispatch "o1" [fxFreshPendingLog] fxOrcFail =
      [Effect.sleep 2000, Effect.recheckEmails "o1"] ∧
    Effect.invokeNotify "o1" ∉ emailDispatch "o1" [fxFreshPendingLog] fxOrcFail := by
  refine ⟨by decide, by decide⟩

/-- C8 (amended): when the order is marked paid and the most recent
`order_paid` email log is `sent`/`delivered`, or `pending` and older
than 10 seconds, notification dispatch is skipped as a duplicate; when
it is `pending` and at most 10 seconds old, the handler waits 2 seconds
once and re-checks, but in no case triggers the notification (the
re-check outcome only affects logging); when no such log exists, the
notification is invoked once. -/
theorem c8_email_notification_idempotency :
    (∀ (oid : String) (logs : List EmailLog) (orc : Oracle) (l : EmailLog),
      latestOrderPaidLog oid logs = some l →
      (l.status = "sent" ∨ l.status = "delivered" ∨
        (l.status = "pending" ∧ 10000 < orc.now - l.created_at)) →
      emailDispatch oid logs orc = []) ∧
    (∀ (oid : String) (logs : List EmailLog) (orc : Oracle) (l : EmailLog),
      latestOrderPaidLog oid logs = some l →
      l.status = "pending" → orc.now - l.created_at ≤ 10000 →
      emailDispatch oid logs orc = [Effect.sleep 2000, Effect.recheckEmails oid] ∧
      Effect.invokeNotify oid ∉ emailDispatch oid logs orc) ∧
    (∀ (oid : String) (logs : List EmailLog) (orc : Oracle),
      latestOrderPaidLog oid logs = none →
      emailDispatch oid logs orc = [Effect.invokeNotify oid]) := by
  refine ⟨?_, ?_, ?_⟩
  · intro oid logs orc l hl hcond
    unfold emailDispatch
    rw [hl]
    simp only
    rw [if_pos hcond]
  · intro oid logs orc l hl hpend hfresh
    have hrun : emailDispatch oid logs orc =
        [Effect.sleep 2000, Effect.recheckEmails oid] := by
      unfold emailDispatch
      rw [hl]
      simp only
      rw [if_neg, if_pos ⟨hpend, hfresh⟩]
      intro hcond
      rcases hcond with hs | hd | ⟨_, hstale⟩
      · rw [hpend] at hs
        exact absurd hs (by decide)
      · rw [hpend] at hd
        exact absurd hd (by decide)
      · omega
    refine ⟨hrun, ?_⟩
    rw [hrun]
    simp
  · intro oid logs orc hl
    unfold emailDispatch
    rw [hl]

/-- Witness for C8 at concrete inputs: a `sent` log skips dispatch, a
fresh pending log produces only the wait and the re-check, and an empty
log table produces exactly one notification invocation. -/
theorem c8_email_notification_idempotency_witness :
    emailDispatch "o1" [fxSentLog] fxOrcFail = [] ∧
    emailDispatch "o1" [fxFreshPendingLog] fxOrcFail =
      [Effect.sleep 2000, Effect.recheckEmails "o1"] ∧
    emailDispatch "o1" [] fxOrcFail = [Effect.invokeNotify "o1"] := by
  have h := c8_email_notification_idempotency
  refine ⟨h.1 "o1" [fxSentLog] fxOrcFail fxSentLog (by decide) (by decide),
    (h.2.1 "o1" [fxFreshPendingLog] fxOrcFail fxFreshPendingLog
      (by decide) (by decide) (by decide)).1,
    h.2.2 "o1" [] fxOrcFail (by decide)⟩

end MusicLovely

namespace MusicLovely

/-- C5 counterexample: a truthy but unparsable string amount (`"abc"`)
yields `NaN` (serialized as SQL `null`), not zero. -/
theorem c5_counterexample :
    caktoAmountCents (.str "abc") .null .null = none ∧
    caktoAmountCents (.str "abc") .null .null ≠ some 0 := by
  refine ⟨by decide, by decide⟩

/-- C5 (amended): `amount_cents` equals the selected amount field parsed
as a decimal (string or number), multiplied by 100 and rounded to the
nearest integer (half up); `"150.5"` yields 15050; it is zero when the
amount fields are absent or falsy, but a truthy string that `parseFloat`
cannot parse yields `NaN` (stored as `null`), not zero. -/
theorem c5_amount_normalization :
    (∀ (s : String) (d : Dec), parseFloatD s = some d →
      amountCentsOf (.str s) = some ⌊d.toQ * 100 + 1/2⌋) ∧
    (∀ d : Dec, amountCentsOf (.num d) = some ⌊d.toQ * 100 + 1/2⌋) ∧
    caktoAmountCents (.str "150.5") .null .null = some 15050 ∧
    hotmartAmountCents (.str "150.5") .null = some 15050 ∧
    (∀ s : String, parseFloatD s = none → amountCentsOf (.str s) = none) ∧
    (∀ a b c : Json, jsTruthy a = false → jsTruthy b = false → jsTruthy c = false →
      caktoAmountCents a b c = some 0) := by
  have hval : ∀ d : Dec, jsRoundD (decMul100 d) = ⌊d.toQ * 100 + 1/2⌋ := by
    intro d
    rw [jsRoundD_eq_floor, decMul100_toQ]
  refine ⟨?_, ?_, by decide, by decide, ?_, ?_⟩
  · intro s d h
    simp only [amountCentsOf, amountReais]
    rw [h, Option.map_some', hval]
  · intro d
    simp only [amountCentsOf, amountReais]
    rw [Option.map_some', hval]
    rfl
  · intro s h
    simp only [amountCentsOf, amountReais]
    rw [h]
    rfl
  · intro a b c ha hb hc
    unfold caktoAmountCents selectRaw3
    simp only [ha, hb, hc, Bool.false_eq_true, if_false]
    decide

/-- Witness for C5 at concrete inputs: `"150.5"` parses to the exact
decimal `1505 * 10 ^ (-1)` and yields the rounded cents, `"abc"` fails
to parse and yields `NaN`, and all-falsy amount fields yield zero. -/
theorem c5_amount_normalization_witness :
    amountCentsOf (.str "150.5") = some ⌊(Dec.mk 1505 (-1)).toQ * 100 + 1/2⌋ ∧
    amountCentsOf (.str "abc") = none ∧
    caktoAmountCents .null (.bool false) (.num ⟨0, 5⟩) = some 0 := by
  have h := c5_amount_normalization
  refine ⟨h.1 "150.5" ⟨1505, -1⟩ (by decide), h.2.2.2.2.1 "abc" (by decide),
    h.2.2.2.2.2 .null (.bool false) (.num ⟨0, 5⟩) (by decide) (by decide) (by decide)⟩

/-- C6 counterexample: an authenticated, matched and validated
`purchase_refused` Cakto event is acknowledged with 200, but the
response body has NO `processed` field at all (it carries
`received: true` instead), contradicting the claim's `processed=false`. -/
theorem c6_counterexample :
    (caktoHandler fxCaktoRefused (mkDb [fxPendingCakto]) fxOrcFail).response.code = 200 ∧
    (caktoHandler fxCaktoRefused (mkDb [fxPendingCakto]) fxOrcFail).response.body.lookup
      "processed" = none ∧
    (caktoHandler fxCaktoRefused (mkDb [fxPendingCakto]) fxOrcFail).db =
      mkDb [fxPendingCakto] := by
  refine ⟨by decide, by decide, by decide⟩

/-- C6 (amended): for every authenticated, matched and validated event
whose normalized status is not approved (and whose raw event is not the
approval event), the handler returns HTTP 200 with `received = true`, a
`message` of "Webhook recebido mas não processado" and no `processed`
field, and performs no mutation, no log insert and no side effect. -/
theorem c6_non_approved_acknowledged_without_mutation :
    (∀ (inp : CaktoEvent) (db : Db) (orc : Oracle) (o : Order) (nm : String),
      caktoHasIdentifier inp = true →
      caktoMatch inp db.orders = some (o, nm) →
      caktoShouldProcess inp.event (caktoNormalize inp.event (caktoStatusOf inp)) = false →
      caktoHandler inp db orc =
        { response := { code := 200, body := [("received", .b true),
            ("event", .s (if inp.event = "" then "unknown" else inp.event)),
            ("status", .s (caktoNormalize inp.event (caktoStatusOf inp))),
            ("message", .s "Webhook recebido mas não processado")] }
          db := db, logs := [], effects := [] } ∧
      (caktoHandler inp db orc).response.body.lookup "processed" = none) ∧
    (∀ (inp : HotmartEvent) (db : Db) (orc : Oracle) (o : Order) (nm : String),
      hotmartHasIdentifier inp = true →
      hotmartMatch inp db.orders = some (o, nm) →
      hotmartShouldProcess inp.event (hotmartNormalize inp.event) = false →
      hotmartHandler inp db orc =
        { response := { code := 200, body := [("received", .b true),
            ("event", .s (if inp.event = "" then "unknown" else inp.event)),
            ("status", .s (hotmartNormalize inp.event)),
            ("message", .s "Webhook recebido mas não processado")] }
          db := db, logs := [], effects := [] } ∧
      (hotmartHandler inp db orc).response.body.lookup "processed" = none) := by
  constructor
  · intro inp db orc o nm hId hm hsp
    have hrun : caktoHandler inp db orc =
        { response := { code := 200, body := [("received", .b true),
            ("event", .s (if inp.event = "" then "unknown" else inp.event)),
            ("status", .s (caktoNormalize inp.event (caktoStatusOf inp))),
            ("message", .s "Webhook recebido mas não processado")] }
          db := db, logs := [], effects := [] } := by
      rw [caktoHandler_eq_process hId hm]
      unfold caktoProcess
      rw [hsp]
      simp only [Bool.false_eq_true, if_false]
    refine ⟨hrun, ?_⟩
    rw [hrun]
    rfl
  · intro inp db orc o nm hId hm hsp
    have hrun : hotmartHandler inp db orc =
        { response := { code := 200, body := [("received", .b true),
            ("event", .s (if inp.event = "" then "unknown" else inp.event)),
            ("status", .s (hotmartNormalize inp.event)),
            ("message", .s "Webhook recebido mas não processado")] }
          db := db, logs := [], effects := [] } := by
      rw [hotmartHandler_eq_process hId hm]
      unfold hotmartProcess
      rw [hsp]
      simp only [Bool.false_eq_true, if_false]
    refine ⟨hrun, ?_⟩
    rw [hrun]
    rfl

/-- Witness for C6 at concrete inputs: a refused Cakto event and a
cancelled Hotmart event are both acknowledged without mutation. -/
theorem c6_non_approved_acknowledged_without_mutation_witness :
    caktoHandler fxCaktoRefused (mkDb [fxPendingCakto]) fxOrcFail =
      { response := { code := 200, body := [("received", .b true),
          ("event", .s "purchase_refused"), ("status", .s "refused"),
          ("message", .s "Webhook recebido mas não processado")] }
        db := mkDb [fxPendingCakto], logs := [], effects := [] } ∧
    hotmartHandler fxHotCancelled (mkDb [fxPendingHot]) fxOrcFail =
      { response := { code := 200, body := [("received", .b true),
          ("event", .s "PURCHASE_CANCELLED"), ("status", .s "cancelled"),
          ("message", .s "Webhook recebido mas não processado")] }
        db := mkDb [fxPendingHot], logs := [], effects := [] } := by
  have h := c6_non_approved_acknowledged_without_mutation
  have hc := (h.1 fxCaktoRefused (mkDb [fxPendingCakto]) fxOrcFail fxPendingCakto
    "cakto_transaction_id" (by decide) (by decide) (by decide)).1
  have hh := (h.2 fxHotCancelled (mkDb [fxPendingHot]) fxOrcFail fxPendingHot
    "hotmart_transaction_id" (by decide) (by decide) (by decide)).1
  refine ⟨?_, ?_⟩
  · rw [hc]
    decide
  · rw [hh]
    decide

end MusicLovely

namespace MusicLovely

/-- C1: on an approved event matching an already-paid order, the Cakto
handler short-circuits to HTTP 200 "Already processed" with no update,
no log row and no side effect, while the Hotmart handler re-applies the
paid update (provider payment status, transaction id, `paid_at`)
unconditionally and re-runs the whole side-effect dispatch (email
idempotency check plus gated lyrics generation). -/
theorem c1_already_paid_asymmetry :
    (∀ (inp : CaktoEvent) (db : Db) (orc : Oracle) (o : Order) (nm : String),
      caktoHasIdentifier inp = true →
      caktoMatch inp db.orders = some (o, nm) →
      caktoShouldProcess inp.event (caktoNormalize inp.event (caktoStatusOf inp)) = true →
      o.status = "paid" →
      caktoHandler inp db orc =
        { response := { code := 200, body := [("received", .b true),
            ("message", .s "Already processed")] }
          db := db, logs := [], effects := [] }) ∧
    (∀ (inp : HotmartEvent) (db : Db) (orc : Oracle) (o : Order) (nm : String),
      hotmartHasIdentifier inp = true →
      hotmartMatch inp db.orders = some (o, nm) →
      hotmartShouldProcess inp.event (hotmartNormalize inp.event) = true →
      o.status = "paid" →
      (hotmartHandler inp db orc).db.orders =
        db.orders.map (fun x => if x.id = o.id then
          applyHotmartUpdate x inp (hotmartPaidAt inp orc) orc else x) ∧
      (hotmartHandler inp db orc).logs =
        [hotmartSuccessLog inp (hotmartNormalize inp.event)
          (hotmartAmountCents inp.priceValue inp.purchaseAmount) nm orc] ∧
      (hotmartHandler inp db orc).effects =
        emailDispatch o.id db.emailLogs orc ++
          (hotmartLyricsStage db
            (applyHotmartUpdate o inp (hotmartPaidAt inp orc) orc) orc).2.2 ∧
      (hotmartHandler inp db orc).response.code = 200) := by
  constructor
  · intro inp db orc o nm hId hm hsp hpaid
    rw [caktoHandler_eq_process hId hm]
    unfold caktoProcess
    rw [hsp]
    simp only [if_true]
    rw [if_pos hpaid]
  · intro inp db orc o nm hId hm hsp hpaid
    rw [hotmartHandler_eq_process hId hm]
    unfold hotmartProcess
    rw [hsp]
    simp only [if_true]
    refine ⟨?_, ?_, ?_, ?_⟩ <;> first | rfl | trivial

/-- Witness for C1 at concrete inputs: a replayed approved event for an
already-paid order (matched by transaction id) is a no-op for Cakto but
re-applies the update and re-dispatches for Hotmart. -/
theorem c1_already_paid_asymmetry_witness :
    caktoHandler fxCaktoApproved (mkDb [fxPaidCakto]) fxOrcFail =
      { response := { code := 200, body := [("received", .b true),
          ("message", .s "Already processed")] }
        db := mkDb [fxPaidCakto], logs := [], effects := [] } ∧
    (hotmartHandler fxHotApproved (mkDb [fxPaidHot]) fxOrcFail).logs =
      [hotmartSuccessLog fxHotApproved (hotmartNormalize fxHotApproved.event)
        (hotmartAmountCents fxHotApproved.priceValue fxHotApproved.purchaseAmount)
        "hotmart_transaction_id" fxOrcFail] ∧
    (hotmartHandler fxHotApproved (mkDb [fxPaidHot]) fxOrcFail).response.code = 200 := by
  have h := c1_already_paid_asymmetry
  have hh := h.2 fxHotApproved (mkDb [fxPaidHot]) fxOrcFail fxPaidHot
    "hotmart_transaction_id" (by decide) (by decide) (by decide) (by decide)
  exact ⟨h.1 fxCaktoApproved (mkDb [fxPaidCakto]) fxOrcFail fxPaidCakto
    "cakto_transaction_id" (by decide) (by decide) (by decide) (by decide),
    hh.2.1, hh.2.2.2⟩

/-- C2: the Cakto matcher tries order-id hint, transaction id, email,
then phone, each only if the previous produced no match; the first match
wins; and the winning strategy's name is placed in the success response
body and in the success log row.  (The well-formedness test of the
order-id hint, `isValidUUID`, lives outside the provided sources and is
modelled from the spec as a UUID-shape check.) -/
theorem c2_cakto_cascade_order_and_retention :
    (∀ (inp : CaktoEvent) (orders : List Order),
      (∀ o, caktoStrat0 inp orders = some o →
        caktoMatch inp orders = some (o, "order_id_from_webhook")) ∧
      (caktoStrat0 inp orders = none → ∀ o, caktoStrat1 inp orders = some o →
        caktoMatch inp orders = some (o, "cakto_transaction_id")) ∧
      (caktoStrat0 inp orders = none → caktoStrat1 inp orders = none →
        ∀ o, caktoStrat2 inp orders = some o →
        caktoMatch inp orders = some (o, "email_most_recent")) ∧
      (caktoStrat0 inp orders = none → caktoStrat1 inp orders = none →
        caktoStrat2 inp orders = none → ∀ o, caktoStrat3 inp orders = some o →
        caktoMatch inp orders = some (o, "phone_most_recent")) ∧
      (caktoStrat0 inp orders = none → caktoStrat1 inp orders = none →
        caktoStrat2 inp orders = none → caktoStrat3 inp orders = none →
        caktoMatch inp orders = none)) ∧
    (∀ (inp : CaktoEvent) (db : Db) (orc : Oracle) (o : Order) (nm : String),
      caktoHasIdentifier inp = true →
      caktoMatch inp db.orders = some (o, nm) →
      caktoShouldProcess inp.event (caktoNormalize inp.event (caktoStatusOf inp)) = true →
      o.status ≠ "paid" →
      (caktoHandler inp db orc).response.body =
        [("success", Jv.b true), ("order_id", Jv.s o.id), ("strategy_used", Jv.s nm),
         ("lyrics_generated", Jv.b (lyricsRetry o.id orc.lyrics 3).1),
         ("message", Jv.s "Pedido marcado como pago. Email e letra serão enviados automaticamente.")] ∧
      (caktoHandler inp db orc).logs.map (fun l => l.strategy_used) = [nm]) := by
  constructor
  · intro inp orders
    refine ⟨?_, ?_, ?_, ?_, ?_⟩
    · intro o h0
      unfold caktoMatch
      rw [h0]
    · intro h0 o h1
      unfold caktoMatch
      rw [h0, h1]
    · intro h0 h1 o h2
      unfold caktoMatch
      rw [h0, h1, h2]
    · intro h0 h1 h2 o h3
      unfold caktoMatch
      rw [h0, h1, h2, h3]
    · intro h0 h1 h2 h3
      unfold caktoMatch
      rw [h0, h1, h2, h3]
  · intro inp db orc o nm hId hm hsp hnp
    rw [caktoHandler_eq_process hId hm]
    unfold caktoProcess
    rw [hsp]
    simp only [if_true]
    rw [if_neg hnp]
    exact ⟨rfl, rfl⟩

/-- Witness for C2 at concrete inputs: with no order-id hint the
transaction-id strategy wins, and the strategy name appears in the
response body and the log row of a successful run. -/
theorem c2_cakto_cascade_order_and_retention_witness :
    caktoMatch fxCaktoApproved [fxPendingCakto] = some (fxPendingCakto, "cakto_transaction_id") ∧
    (caktoHandler fxCaktoApproved (mkDb [fxPendingCakto]) fxOrcFail).response.body =
      [("success", Jv.b true), ("order_id", Jv.s fxPendingCakto.id),
       ("strategy_used", Jv.s "cakto_transaction_id"),
       ("lyrics_generated", Jv.b (lyricsRetry fxPendingCakto.id fxOrcFail.lyrics 3).1),
       ("message", Jv.s "Pedido marcado como pago. Email e letra serão enviados automaticamente.")] ∧
    (caktoHandler fxCaktoApproved (mkDb [fxPendingCakto]) fxOrcFail).logs.map
      (fun l => l.strategy_used) = ["cakto_transaction_id"] := by
  have h := c2_cakto_cascade_order_and_retention
  have hret := h.2 fxCaktoApproved (mkDb [fxPendingCakto]) fxOrcFail fxPendingCakto
    "cakto_transaction_id" (by decide) (by decide) (by decide) (by decide)
  exact ⟨((h.1 fxCaktoApproved [fxPendingCakto]).2.1 (by decide) fxPendingCakto (by decide)),
    hret.1, hret.2⟩

/-- C3 counterexample: a not-matched Cakto event does insert a log row,
but that row carries NO elapsed time (`processing_time_ms` is null),
and an already-paid replay — a terminal outcome of a request that
reached matching — inserts no log row at all. -/
theorem c3_counterexample :
    (caktoHandler fxCaktoNoMatch (mkDb [fxPendingCakto]) fxOrcFail).response.code = 404 ∧
    (caktoHandler fxCaktoNoMatch (mkDb [fxPendingCakto]) fxOrcFail).logs.map
      (fun l => l.processing_time_ms) = [none] ∧
    (caktoHandler fxCaktoApproved (mkDb [fxPaidCakto]) fxOrcFail).response.code = 200 ∧
    (caktoHandler fxCaktoApproved (mkDb [fxPaidCakto]) fxOrcFail).logs = [] := by
  refine ⟨by decide, by decide, by decide, by decide⟩

/-- C3 (amended): of the terminal outcomes of a Cakto request that
reaches matching, exactly two insert a `cakto_webhook_logs` row: a
failed match (strategy `none`, no elapsed time) and a successful paid
update (winning strategy and elapsed time); the acknowledged-but-ignored
and already-paid outcomes insert nothing, and the validation-mismatch
branch is unreachable because every match either uses a reliable
strategy or agrees on the email. -/
theorem c3_webhook_log_rows :
    (∀ (inp : CaktoEvent) (db : Db) (orc : Oracle),
      caktoHasIdentifier inp = true →
      caktoMatch inp db.orders = none →
      (caktoHandler inp db orc).response.code = 404 ∧
      (caktoHandler inp db orc).logs =
        [caktoNotFoundLog inp (caktoNormalize inp.event (caktoStatusOf inp))
          (caktoAmountCents inp.amount inp.amountPaid inp.total)] ∧
      (caktoNotFoundLog inp (caktoNormalize inp.event (caktoStatusOf inp))
        (caktoAmountCents inp.amount inp.amountPaid inp.total)).strategy_used = "none" ∧
      (caktoNotFoundLog inp (caktoNormalize inp.event (caktoStatusOf inp))
        (caktoAmountCents inp.amount inp.amountPaid inp.total)).processing_time_ms = none) ∧
    (∀ (inp : CaktoEvent) (db : Db) (orc : Oracle) (o : Order) (nm : String),
      caktoHasIdentifier inp = true →
      caktoMatch inp db.orders = some (o, nm) →
      caktoShouldProcess inp.event (caktoNormalize inp.event (caktoStatusOf inp)) = true →
      o.status ≠ "paid" →
      (caktoHandler inp db orc).logs =
        [caktoSuccessLog inp (caktoNormalize inp.event (caktoStatusOf inp))
          (caktoAmountCents inp.amount inp.amountPaid inp.total) nm orc] ∧
      (caktoSuccessLog inp (caktoNormalize inp.event (caktoStatusOf inp))
        (caktoAmountCents inp.amount inp.amountPaid inp.total) nm orc).strategy_used = nm ∧
      (caktoSuccessLog inp (caktoNormalize inp.event (caktoStatusOf inp))
        (caktoAmountCents inp.amount inp.amountPaid inp.total) nm orc).processing_time_ms =
          some orc.elapsedMs) ∧
    (∀ (inp : CaktoEvent) (db : Db) (orc : Oracle) (o : Order) (nm : String),
      caktoHasIdentifier inp = true →
      caktoMatch inp db.orders = some (o, nm) →
      caktoShouldProcess inp.event (caktoNormalize inp.event (caktoStatusOf inp)) = false →
      (caktoHandler inp db orc).logs = []) ∧
    (∀ (inp : CaktoEvent) (db : Db) (orc : Oracle) (o : Order) (nm : String),
      caktoHasIdentifier inp = true →
      caktoMatch inp db.orders = some (o, nm) →
      caktoShouldProcess inp.event (caktoNormalize inp.event (caktoStatusOf inp)) = true →
      o.status = "paid" →
      (caktoHandler inp db orc).logs = []) ∧
    (∀ (inp : CaktoEvent) (orders : List Order) (o : Order) (nm : String),
      caktoMatch inp orders = some (o, nm) → caktoValidate inp o nm = none) := by
  refine ⟨?_, ?_, ?_, ?_, fun inp orders o nm hm => caktoValidate_none_of_match hm⟩
  · intro inp db orc hId hm
    have hrun : caktoHandler inp db orc =
        { response := { code := 404, body := [("error", .s "Pedido não encontrado"),
            ("message", .s "Nenhum pedido corresponde aos dados fornecidos")] }
          db := db
          logs := [caktoNotFoundLog inp (caktoNormalize inp.event (caktoStatusOf inp))
            (caktoAmountCents inp.amount inp.amountPaid inp.total)]
          effects := [] } := by
      unfold caktoHandler
      rw [if_pos hId]
      simp only [hm]
    rw [hrun]
    exact ⟨rfl, rfl, rfl, rfl⟩
  · intro inp db orc o nm hId hm hsp hnp
    rw [caktoHandler_eq_process hId hm]
    unfold caktoProcess
    rw [hsp]
    simp only [if_true]
    rw [if_neg hnp]
    exact ⟨rfl, rfl, rfl⟩
  · intro inp db orc o nm hId hm hsp
    rw [caktoHandler_eq_process hId hm]
    unfold caktoProcess
    rw [hsp]
    simp only [Bool.false_eq_true, if_false]
  · intro inp db orc o nm hId hm hsp hpaid
    rw [caktoHandler_eq_process hId hm]
    unfold caktoProcess
    rw [hsp]
    simp only [if_true]
    rw [if_pos hpaid]

/-- Witness for C3 at concrete inputs: the four terminal outcomes of
requests that reach matching, at the stored fixtures. -/
theorem c3_webhook_log_rows_witness :
    (caktoHandler fxCaktoNoMatch (mkDb [fxPendingCakto]) fxOrcFail).response.code = 404 ∧
    (caktoHandler fxCaktoApproved (mkDb [fxPendingCakto]) fxOrcFail).logs =
      [caktoSuccessLog fxCaktoApproved
        (caktoNormalize fxCaktoApproved.event (caktoStatusOf fxCaktoApproved))
        (caktoAmountCents fxCaktoApproved.amount fxCaktoApproved.amountPaid
          fxCaktoApproved.total) "cakto_transaction_id" fxOrcFail] ∧
    (caktoHandler fxCaktoRefused (mkDb [fxPendingCakto]) fxOrcFail).logs = [] ∧
    (caktoHandler fxCaktoApproved (mkDb [fxPaidCakto]) fxOrcFail).logs = [] ∧
    caktoValidate fxCaktoApproved fxPendingCakto "cakto_transaction_id" = none := by
  have h := c3_webhook_log_rows
  refine ⟨(h.1 fxCaktoNoMatch (mkDb [fxPendingCakto]) fxOrcFail (by decide) (by decide)).1,
    (h.2.1 fxCaktoApproved (mkDb [fxPendingCakto]) fxOrcFail fxPendingCakto
      "cakto_transaction_id" (by decide) (by decide) (by decide) (by decide)).1,
    h.2.2.1 fxCaktoRefused (mkDb [fxPendingCakto]) fxOrcFail fxPendingCakto
      "cakto_transaction_id" (by decide) (by decide) (by decide),
    h.2.2.2.1 fxCaktoApproved (mkDb [fxPaidCakto]) fxOrcFail fxPaidCakto
      "cakto_transaction_id" (by decide) (by decide) (by decide) (by decide),
    h.2.2.2.2 fxCaktoApproved [fxPendingCakto] fxPendingCakto
      "cakto_transaction_id" (by decide)⟩

end MusicLovely
